import Mathlib

/-!
Shallow embedding of `src/mockall_derive/src/mock.rs`, the `mock!{}` code
generator of the mockall crate.  The Rust syntax trees (`syn` types) that the
generator inspects are modelled by the inductive types below; each generator
function is translated into a Lean function over those trees, returning its
structured output together with the list of diagnostics it reported through
`compile_error` (and the variadic `assert!`).  Lifetimes are stored without
their leading tick, and the tick characters are likewise omitted from the
modelled diagnostic texts.
-/

namespace Mockall

/-- A Rust type (`syn::Type`), restricted to the shapes `mock.rs` ever
inspects or builds: tuples, references (optional lifetime, stored without the
leading tick, plus a mutability flag) and paths with generic arguments.
`RsType.lifetime` encodes a lifetime occurring in generic-argument position. -/
inductive RsType where
  | tuple (elems : List RsType)
  | ref (lt : Option String) (mutbl : Bool) (elem : RsType)
  | path (name : String) (args : List RsType)
  | lifetime (name : String)

mutual

/-- Decidable equality for `RsType` (the nested `List` recursion prevents the
automatic derivation). -/
def RsType.decEq : (a b : RsType) → Decidable (a = b)
  | .tuple xs, .tuple ys =>
    match RsType.decEqList xs ys with
    | isTrue h => isTrue (by rw [h])
    | isFalse h => isFalse (by intro hh; injection hh; contradiction)
  | .tuple _, .ref .. => isFalse nofun
  | .tuple _, .path .. => isFalse nofun
  | .tuple _, .lifetime _ => isFalse nofun
  | .ref .., .tuple _ => isFalse nofun
  | .ref l1 m1 e1, .ref l2 m2 e2 =>
    if h1 : l1 = l2 then
      if h2 : m1 = m2 then
        match RsType.decEq e1 e2 with
        | isTrue h3 => isTrue (by rw [h1, h2, h3])
        | isFalse h3 => isFalse (by intro hh; injection hh; contradiction)
      else isFalse (by intro hh; injection hh; contradiction)
    else isFalse (by intro hh; injection hh; contradiction)
  | .ref .., .path .. => isFalse nofun
  | .ref .., .lifetime _ => isFalse nofun
  | .path .., .tuple _ => isFalse nofun
  | .path .., .ref .. => isFalse nofun
  | .path n1 a1, .path n2 a2 =>
    if h1 : n1 = n2 then
      match RsType.decEqList a1 a2 with
      | isTrue h2 => isTrue (by rw [h1, h2])
      | isFalse h2 => isFalse (by intro hh; injection hh; contradiction)
    else isFalse (by intro hh; injection hh; contradiction)
  | .path .., .lifetime _ => isFalse nofun
  | .lifetime _, .tuple _ => isFalse nofun
  | .lifetime _, .ref .. => isFalse nofun
  | .lifetime _, .path .. => isFalse nofun
  | .lifetime n1, .lifetime n2 =>
    if h : n1 = n2 then isTrue (by rw [h])
    else isFalse (by intro hh; injection hh; contradiction)

/-- Decidable equality for lists of `RsType`. -/
def RsType.decEqList : (a b : List RsType) → Decidable (a = b)
  | [], [] => isTrue rfl
  | [], _ :: _ => isFalse nofun
  | _ :: _, [] => isFalse nofun
  | x :: xs, y :: ys =>
    match RsType.decEq x y with
    | isTrue h1 =>
      match RsType.decEqList xs ys with
      | isTrue h2 => isTrue (by rw [h1, h2])
      | isFalse h2 => isFalse (by intro hh; injection hh; contradiction)
    | isFalse h1 => isFalse (by intro hh; injection hh; contradiction)

end

instance : DecidableEq RsType := RsType.decEq

/-- A function argument (`syn::FnArg`): a receiver (`&self` / `&mut self` /
`self`) or a captured `pattern: type` argument.  The remaining `syn` variants
(`Inferred`, `Ignored`) cannot appear in normal Rust code, as the source
notes at its `compile_error` fall-through arms. -/
inductive FnArg where
  | selfRef (mutbl : Bool)
  | selfValue
  | captured (pat : String) (ty : RsType)
deriving DecidableEq

/-- A generic parameter (`syn::GenericParam`): a lifetime (with its bound
list), a type parameter, or a const parameter. -/
inductive GenericParam where
  | lifetime (name : String) (bounds : List String)
  | tyParam (name : String)
  | constParam (name : String)
deriving DecidableEq

/-- A generics list (`syn::Generics`). -/
structure Generics where
  params : List GenericParam
deriving DecidableEq

/-- A method signature (`syn::MethodSig`): qualifiers, name, the method's own
generics, arguments in declaration order (receiver included), the optional
return type (`none` models `syn::ReturnType::Default`) and the variadic
flag. -/
structure MethodSig where
  constness : Bool
  unsafety : Bool
  asyncness : Bool
  abi : Option String
  ident : String
  generics : Generics
  inputs : List FnArg
  output : Option RsType
  variadic : Bool
deriving DecidableEq

/-- A diagnostic message reported through `compile_error`. -/
abbrev Diag := String

/-- Result of `method_types`, mirroring the Rust `MethodTypes` struct.
`expectation` stores the identifier the source calls `partial_ex`
("Expectation", "RefExpectation" or "RefMutExpectation"); the Rust
`expectation` field is the type `::mockall::<partial_ex>`. -/
structure MethodTypes where
  is_static : Bool
  input_type : List RsType
  output_type : RsType
  expect_obj : RsType
  expectation : String
  call : String
  call_turbofish : Option (RsType × RsType)
deriving DecidableEq

/-- The loop over `sig.decl.inputs` at the top of `method_types`: starts with
`is_static = true`, clears it on either receiver form, and pushes each
captured argument's type onto the input-tuple element list. -/
def inputsFold (inputs : List FnArg) : Bool × List RsType :=
  inputs.foldl
    (fun acc a =>
      match a with
      | .captured _ ty => (acc.1, acc.2 ++ [ty])
      | .selfRef _ => (false, acc.2)
      | .selfValue => (false, acc.2))
    (true, [])

/-- Translation of `method_types` (`mock.rs` lines 295-386).  The match on
the return type picks `(output_type, partial_ex, call)`; a returned reference
whose explicit lifetime is not `'static` reports a diagnostic (and the
function then proceeds, exactly as the Rust does after `compile_error`). -/
def method_types (sig : MethodSig) : MethodTypes × List Diag :=
  let st := inputsFold sig.inputs
  let is_static := st.1
  let elems := st.2
  let is_generic := !sig.generics.params.isEmpty
  let r : (RsType × String × String) × List Diag :=
    match sig.output with
    | none => ((RsType.tuple [], "Expectation", "call"), [])
    | some ty =>
      match ty with
      | .ref lt mutbl elem =>
        let d : List Diag :=
          match lt with
          | some l =>
            if l = "static" then []
            else ["Non-static non-self lifetimes are not yet supported"]
          | none => []
        if mutbl then ((elem, "RefMutExpectation", "call_mut"), d)
        else ((elem, "RefExpectation", "call"), d)
      | _ => ((ty, "Expectation", "call"), [])
  let output_type := r.1.1
  let exName := r.1.2.1
  let callName := r.1.2.2
  let call_turbofish : Option (RsType × RsType) :=
    if is_generic then some (RsType.tuple elems, output_type) else none
  let expect_obj : RsType :=
    if is_generic then RsType.path ("::mockall::Generic" ++ exName ++ "s") []
    else RsType.path ("::mockall::" ++ exName ++ "s")
           [RsType.tuple elems, output_type]
  ({ is_static := is_static, input_type := elems, output_type := output_type,
     expect_obj := expect_obj, expectation := exName, call := callName,
     call_turbofish := call_turbofish }, r.2)

/-- Visibility of an emitted item.  The generator only ever constructs
`syn::Visibility::Public` and `syn::Visibility::Inherited`; the visibility
parsed from the specification is passed through opaquely and is modelled by
the same two shapes. -/
inductive Visibility where
  | publ
  | inherited
deriving DecidableEq

/-- The generic parameter in generic-argument position, as produced by
`split_for_impl().1` (`TypeGenerics`). -/
def GenericParam.asArg : GenericParam → RsType
  | .lifetime n _ => .lifetime n
  | .tyParam n => .path n []
  | .constParam n => .path n []

/-- The type-argument list `#tg` obtained from `generics.split_for_impl()`. -/
def Generics.typeArgs (g : Generics) : List RsType :=
  g.params.map GenericParam.asArg

/-- One field of the generated mock structure (`#name: #ty,`). -/
structure StructField where
  name : String
  ty : RsType
deriving DecidableEq

/-- One `static ref` item registered inside the `::mockall::lazy_static!`
block: `static ref #name: #ty = #init;`. -/
structure StaticItem where
  name : String
  ty : RsType
  init : String
deriving DecidableEq

/-- The structure declaration emitted by `gen_struct`: a
`#[derive(Default)] #vis struct #ident #generics { ... }` whose body is, in
order, the per-trait sub-structure fields, the per-method expectation fields
and the `PhantomData` marker fields, plus the `lazy_static` items (the
`::mockall::lazy_static! { ... }` block is emitted exactly when `statics` is
non-empty). -/
structure GenStruct where
  vis : Visibility
  ident : String
  generics : Generics
  subFields : List StructField
  methodFields : List StructField
  phantoms : List StructField
  statics : List StaticItem
deriving DecidableEq

/-- Body of the generated struct in emission order. -/
def GenStruct.fields (g : GenStruct) : List StructField :=
  g.subFields ++ g.methodFields ++ g.phantoms

/-- Name of the generated mock structure.  `gen_mock_ident` itself lives in
the crate root, outside this file; its behavior — prepending `Mock` to the
identifier — is fixed by the expected outputs of this file's own test module
(`MockExternalStruct`, `MockFoo`, ...). -/
def gen_mock_ident (n : String) : String := "Mock" ++ n

/-- The `PhantomData` loop at the bottom of `gen_struct` (lines 253-279),
with its running field counter: every lifetime parameter yields a
reference-shaped marker (reporting a diagnostic first when the lifetime has
bounds), every type parameter yields a type-shaped marker, and a const
parameter only reports a diagnostic (the counter still advances). -/
def phantomFieldsAux : Nat → List GenericParam → List StructField × List Diag
  | _, [] => ([], [])
  | i, p :: rest =>
    let r := phantomFieldsAux (i + 1) rest
    match p with
    | .lifetime n bs =>
      (StructField.mk ("_t" ++ toString i)
         (.path "::std::marker::PhantomData" [.ref (some n) false (.tuple [])])
         :: r.1,
       (if bs.isEmpty then []
        else ["automock does not yet support lifetime bounds on structs"])
         ++ r.2)
    | .tyParam n =>
      (StructField.mk ("_t" ++ toString i)
         (.path "::std::marker::PhantomData" [.path n []]) :: r.1,
       r.2)
    | .constParam _ =>
      (r.1, "automock does not yet support generic constants" :: r.2)

/-- The marker fields and diagnostics for a full parameter list. -/
def phantomFields (params : List GenericParam) : List StructField × List Diag :=
  phantomFieldsAux 0 params

/-- One iteration of the `for meth in methods` loop of `gen_struct`
(lines 237-251): a static method appends one mutex-guarded `static ref`
item, name-qualified by the mock identifier and the method name and
initialized with `::mockall::Expectations::new()` (the initializer is the
literal written by the `quote!`, whatever `expect_obj` is); any other method
appends one structure field named after the method and typed `expect_obj`. -/
def genStructStep (mockIdent : String)
    (acc : List StructField × List StaticItem × List Diag) (m : MethodSig) :
    List StructField × List StaticItem × List Diag :=
  let r := method_types m
  if r.1.is_static then
    (acc.1,
     acc.2.1 ++ [StaticItem.mk (mockIdent ++ "_" ++ m.ident ++ "_expectation")
                   (.path "::std::sync::Mutex" [r.1.expect_obj])
                   "::mockall::Expectations::new()"],
     acc.2.2 ++ r.2)
  else
    (acc.1 ++ [StructField.mk m.ident r.1.expect_obj], acc.2.1, acc.2.2 ++ r.2)

/-- Translation of `gen_struct` (lines 217-293). -/
def gen_struct (vis : Visibility) (ident : String) (generics : Generics)
    (subs : List (String × Generics)) (methods : List MethodSig) :
    GenStruct × List Diag :=
  let mockIdent := gen_mock_ident ident
  let subFields := subs.map fun s =>
    StructField.mk (s.1 ++ "_expectations")
      (.path (mockIdent ++ "_" ++ s.1) s.2.typeArgs)
  let fsd := methods.foldl (genStructStep mockIdent) ([], [], [])
  let ph := phantomFields generics.params
  ({ vis := vis, ident := mockIdent, generics := generics,
     subFields := subFields, methodFields := fsd.1, phantoms := ph.1,
     statics := fsd.2.1 },
   fsd.2.2 ++ ph.2)

/-- Where the forwarding and expectation methods find their expectation
object: the process-wide lazy static (static methods), the field of a
nested per-trait sub-structure (`self.#sub_struct.#ident`, trait methods),
or a direct field of the mock structure (`self.#ident`, free methods). -/
inductive StorageExpr where
  | globalStatic (name : String)
  | subField (subStruct : String) (field : String)
  | selfField (field : String)
deriving DecidableEq

/-- Body of a generated forwarding method.  `staticCall g args` denotes the
block `{ #g.lock().unwrap().call((#(#args),*)) }`: one critical section
under the process-wide mutex, with the method name `call` written literally
and no turbofish.  `instanceCall loc c tf args` denotes
`{ #loc.#c#tf((#(#args),*)) }`. -/
inductive MethodBody where
  | staticCall (globalName : String) (args : List String)
  | instanceCall (loc : StorageExpr) (callName : String)
      (turbofish : Option (RsType × RsType)) (args : List String)
deriving DecidableEq

/-- A generated forwarding ("mock") method: the original signature's
qualifiers, name, generics, inputs and output reproduced unchanged, plus the
generated body. -/
structure MockMethod where
  defaultness : Bool
  vis : Visibility
  constness : Bool
  unsafety : Bool
  asyncness : Bool
  abi : Option String
  ident : String
  generics : Generics
  inputs : List FnArg
  output : Option RsType
  body : MethodBody
deriving DecidableEq

/-- Shape of a generated expectation method.
`staticGuard g inTy outTy global` denotes
`pub fn #ident #g() -> ::mockall::ExpectationGuard<#lt, #inTy, #outTy> {
::mockall::ExpectationGuard::new(#global.lock().unwrap()) }` where `g`
already contains the extra pushed `'guard` lifetime (its last parameter) and
`#lt` is that lifetime: the returned guard holds the process-wide lock.
`instanceHandle g ex inTy outTy loc tf` denotes
`pub fn #ident #g(&mut self) -> &mut ::mockall::#ex<#inTy, #outTy> {
#loc.expect#tf() }`. -/
inductive ExpectMethodData where
  | staticGuard (generics : Generics) (input : List RsType) (output : RsType)
      (globalName : String)
  | instanceHandle (generics : Generics) (expectation : String)
      (input : List RsType) (output : RsType) (loc : StorageExpr)
      (turbofish : Option (RsType × RsType))
deriving DecidableEq

/-- A generated expectation method; `vis` records the visibility written in
front of `fn` (the `quote!` templates write a literal `pub`). -/
structure ExpectMethod where
  ident : String
  vis : Visibility
  data : ExpectMethodData
deriving DecidableEq

/-- Translation of `gen_mock_method` (lines 114-215).  The Rust `assert!` on
variadic signatures is modelled as a diagnostic.  `defaultness` mirrors the
`Option<&syn::token::Default>` parameter (always absent at both call
sites). -/
def gen_mock_method (mock_ident : String) (defaultness : Bool)
    (vis : Visibility) (sig : MethodSig) (sub : Option String) :
    (MockMethod × ExpectMethod) × List Diag :=
  let dVar : List Diag :=
    if sig.variadic then ["MockAll does not yet support variadic functions"]
    else []
  let sub_name := match sub with | some s => s ++ "_" | none => ""
  let r := method_types sig
  let mt := r.1
  let args := sig.inputs.filterMap fun a =>
    match a with
    | .captured p _ => some p
    | _ => none
  let staticName := mock_ident ++ "_" ++ sub_name ++ sig.ident ++ "_expectation"
  let loc : StorageExpr :=
    match sub with
    | some s => .subField (s ++ "_expectations") sig.ident
    | none => .selfField sig.ident
  let body : MethodBody :=
    if mt.is_static then .staticCall staticName args
    else .instanceCall loc mt.call mt.call_turbofish args
  let mm : MockMethod :=
    { defaultness := defaultness, vis := vis, constness := sig.constness,
      unsafety := sig.unsafety, asyncness := sig.asyncness, abi := sig.abi,
      ident := sig.ident, generics := sig.generics, inputs := sig.inputs,
      output := sig.output, body := body }
  let expect_ident := "expect_" ++ sig.ident
  let em : ExpectMethod :=
    if mt.is_static then
      { ident := expect_ident, vis := .publ,
        data := .staticGuard
          (Generics.mk (sig.generics.params ++ [.lifetime "guard" []]))
          mt.input_type mt.output_type staticName }
    else
      { ident := expect_ident, vis := .publ,
        data := .instanceHandle sig.generics mt.expectation
          mt.input_type mt.output_type loc mt.call_turbofish }
  ((mm, em), dVar ++ r.2)

/-- An item of a trait definition (`syn::TraitItem`): an associated constant,
a method, an associated type (with its own generic-parameter list and its
optional concrete binding `type Name = ty;`), or any other item kind. -/
inductive TraitItem where
  | constItem (name : String)
  | method (sig : MethodSig)
  | assocType (name : String) (params : List GenericParam) (dflt : Option RsType)
  | other
deriving DecidableEq

/-- A trait definition (`syn::ItemTrait`), reduced to what
`mock_trait_methods` reads. -/
structure ItemTrait where
  unsafety : Bool
  ident : String
  generics : Generics
  items : List TraitItem
deriving DecidableEq

/-- The parsed mock specification (the `Mock` struct of `mock.rs`). -/
structure Mock where
  vis : Visibility
  name : String
  generics : Generics
  methods : List MethodSig
  traits : List ItemTrait
deriving DecidableEq

/-- An item of the trait implementation block: a forwarding method or a
concrete associated-type binding copied through verbatim. -/
inductive TraitImplItem where
  | method (m : MockMethod)
  | assocType (name : String) (ty : RsType)
deriving DecidableEq

/-- An item of an inherent implementation block: a forwarding method or an
expectation method. -/
inductive InherentItem where
  | mock (m : MockMethod)
  | expect (e : ExpectMethod)
deriving DecidableEq

/-- An implementation block of the generated output:
`traitImpl u g tn ta si sa items` denotes
`#u impl #g #tn<#ta> for #si<#sa> { #items }` and
`inherentImpl g si sa items` denotes `impl #g #si<#sa> { #items }`. -/
inductive ImplBlock where
  | traitImpl (unsafety : Bool) (generics : Generics) (traitName : String)
      (traitArgs : List RsType) (selfName : String) (selfArgs : List RsType)
      (items : List TraitImplItem)
  | inherentImpl (generics : Generics) (selfName : String)
      (selfArgs : List RsType) (items : List InherentItem)
deriving DecidableEq

/-- One top-level item of the generated token stream: a structure declaration
(with its `lazy_static` block when it registered statics) or an
implementation block. -/
inductive OutputItem where
  | structDecl (s : GenStruct)
  | implBlock (b : ImplBlock)
deriving DecidableEq

/-- One iteration of the `for trait_item in item.items` loop of
`mock_trait_methods` (lines 405-447): constants are silently skipped,
methods are lowered through `gen_mock_method` with inherited visibility and
the trait name as `sub`, associated types first report a diagnostic when
they carry their own generic parameters, then are copied verbatim when they
have a concrete binding and report a further diagnostic otherwise; any other
item kind reports a diagnostic. -/
def traitStep (mock_ident : String) (traitIdent : String)
    (acc : List TraitImplItem × List ExpectMethod × List Diag)
    (ti : TraitItem) :
    List TraitImplItem × List ExpectMethod × List Diag :=
  match ti with
  | .constItem _ => acc
  | .method ms =>
    let r := gen_mock_method mock_ident false .inherited ms (some traitIdent)
    (acc.1 ++ [.method r.1.1], acc.2.1 ++ [r.1.2], acc.2.2 ++ r.2)
  | .assocType n ps d =>
    let d1 : List Diag :=
      if ps.isEmpty then []
      else ["Mockall does not yet support generic associated types"]
    match d with
    | some ty => (acc.1 ++ [.assocType n ty], acc.2.1, acc.2.2 ++ d1)
    | none =>
      (acc.1, acc.2.1,
       acc.2.2 ++ d1 ++ ["Associated types must be made concrete for mocking."])
  | .other =>
    (acc.1, acc.2.1, acc.2.2 ++ ["This impl item is not yet supported by MockAll"])

/-- Translation of `mock_trait_methods` (lines 397-472): the forwarding
methods and verbatim associated-type bindings go into the trait's own
implementation block, and all expectation methods go into a second, separate
inherent implementation block for the same mock type.  When
`struct_generics` is absent the trait's own generics are used for both the
merged implementation header and the mock type's arguments. -/
def mock_trait_methods (mock_ident : String)
    (struct_generics : Option Generics) (item : ItemTrait) :
    List OutputItem × List Diag :=
  let acc := item.items.foldl (traitStep mock_ident item.ident) ([], [], [])
  let merged := match struct_generics with
    | none => item.generics
    | some g => g
  ([OutputItem.implBlock
      (.traitImpl item.unsafety merged item.ident item.generics.typeArgs
        mock_ident merged.typeArgs acc.1),
    OutputItem.implBlock
      (.inherentImpl merged mock_ident merged.typeArgs
        (acc.2.1.map InherentItem.expect))],
   acc.2.2)

/-- The method items of a trait, as filtered by both the sub-structure
generation in `Mock::gen` (lines 50-56) and the fold of
`mock_trait_methods`. -/
def traitMethodSigs (t : ItemTrait) : List MethodSig :=
  t.items.filterMap fun i =>
    match i with
    | .method ms => some ms
    | _ => none

/-- Concatenation of a list of lists (diagnostic and item streams). -/
def joinAll {α : Type} (l : List (List α)) : List α :=
  l.foldr (fun x acc => x ++ acc) []

/-- Translation of `Mock::gen` (lines 35-81): the main structure, one
sub-structure per trait, one inherent implementation block holding the
public forwarding and expectation methods for the free methods, then the two
blocks of `mock_trait_methods` for each trait. -/
def Mock.gen (m : Mock) : List OutputItem × List Diag :=
  let mock_struct_name := gen_mock_ident m.name
  let subs := m.traits.map fun t => (t.ident, t.generics)
  let mainR := gen_struct m.vis m.name m.generics subs m.methods
  let subRs := m.traits.map fun t =>
    gen_struct .inherited (m.name ++ "_" ++ t.ident) t.generics []
      (traitMethodSigs t)
  let freeRs := m.methods.map fun meth =>
    gen_mock_method mock_struct_name false .publ meth none
  let freeItems := freeRs.foldl
    (fun acc r => acc ++ [InherentItem.mock r.1.1, InherentItem.expect r.1.2])
    []
  let traitRs := m.traits.map fun t =>
    mock_trait_methods mock_struct_name (some m.generics) t
  let items :=
    [OutputItem.structDecl mainR.1]
      ++ subRs.map (fun r => OutputItem.structDecl r.1)
      ++ [OutputItem.implBlock
            (.inherentImpl m.generics mock_struct_name m.generics.typeArgs
              freeItems)]
      ++ joinAll (traitRs.map Prod.fst)
  let diags := mainR.2
    ++ joinAll (subRs.map Prod.snd)
    ++ joinAll (freeRs.map Prod.snd)
    ++ joinAll (traitRs.map Prod.snd)
  (items, diags)

/-- Modelled from the spec: `compile_error` is defined outside this file (in
the crate root) and reports a fatal compile-time diagnostic; per section 7
of the specification "the compiler either emits a complete, correct artifact
or emits nothing usable", so a generation run that reported at least one
diagnostic yields no usable output. -/
def usableOutput (m : Mock) : Option (List OutputItem) :=
  if (Mock.gen m).2 = [] then some (Mock.gen m).1 else none

/-! ## Specification-side vocabulary

Definitions below give names to the concepts the specification's claims are
phrased in (storage kinds, receivers, constrained parameters, ...) and
closed-form characterizations of the generator's folds, used to state the
per-claim theorems. -/

/-- The three storage kinds of the specification (section 4.1). -/
inductive StorageKind where
  | Value
  | RefReturning
  | MutRefReturning
deriving DecidableEq

/-- The storage kind encoded by the expectation family chosen by
`method_types`: `Expectation*` objects hold value-returning behavior,
`RefExpectation*` reference-returning behavior and `RefMutExpectation*`
mutable-reference-returning behavior. -/
def storageKindOf : String → Option StorageKind
  | "Expectation" => some .Value
  | "RefExpectation" => some .RefReturning
  | "RefMutExpectation" => some .MutRefReturning
  | _ => none

/-- Whether an argument is a receiver, in any of its three modes. -/
def isReceiver : FnArg → Bool
  | .selfRef _ => true
  | .selfValue => true
  | .captured _ _ => false

/-- The type of a captured (non-receiver) argument. -/
def capturedTy : FnArg → Option RsType
  | .captured _ t => some t
  | _ => none

/-- The argument patterns forwarded by a generated body, in declaration
order. -/
def argPats (inputs : List FnArg) : List String :=
  inputs.filterMap fun a =>
    match a with
    | .captured p _ => some p
    | _ => none

/-- Whether a signature's return type is a reference carrying an explicit
lifetime other than `'static`. -/
def hasBadRetLifetime (sig : MethodSig) : Bool :=
  match sig.output with
  | some (.ref (some l) _ _) => decide (l ≠ "static")
  | _ => false

/-- The runtime call name a generated forwarding body invokes: the static
branch writes `call` literally, the instance branch writes the classified
selector. -/
def bodySelector : MethodBody → String
  | .staticCall _ _ => "call"
  | .instanceCall _ c _ _ => c

/-- The explicit type arguments a generated forwarding body supplies. -/
def bodyTurbofishOf : MethodBody → Option (RsType × RsType)
  | .staticCall _ _ => none
  | .instanceCall _ _ tf _ => tf

/-- Storage location of a non-static method: a nested sub-structure field
for a trait method, a direct field for a free method. -/
def instanceLocOf (sub : Option String) (ident : String) : StorageExpr :=
  match sub with
  | some s => .subField (s ++ "_expectations") ident
  | none => .selfField ident

/-- The `sub_name` fragment of `gen_mock_method`. -/
def subNameOf : Option String → String
  | some s => s ++ "_"
  | none => ""

/-- The name of the process-wide expectation static referenced by
`gen_mock_method`. -/
def staticExpectNameOf (mock_ident : String) (sub : Option String)
    (ident : String) : String :=
  mock_ident ++ "_" ++ subNameOf sub ++ ident ++ "_expectation"

mutual

/-- Whether the name `n` occurs in a type, either as a path head, a
reference lifetime, or a lifetime argument. -/
def occursIn (n : String) : RsType → Bool
  | .tuple es => occursInList n es
  | .ref lt _ e => (lt = some n) || occursIn n e
  | .path p args => (p = n) || occursInList n args
  | .lifetime l => l = n

/-- Whether the name `n` occurs in any type of the list. -/
def occursInList (n : String) : List RsType → Bool
  | [] => false
  | t :: ts => occursIn n t || occursInList n ts

end

/-- The bare name of a generic parameter. -/
def paramName : GenericParam → String
  | .lifetime n _ => n
  | .tyParam n => n
  | .constParam n => n

/-- The marker type the specification associates with a generic parameter:
reference-shaped for a lifetime, type-shaped for a type parameter, none for
a const parameter. -/
def markerFor : GenericParam → Option RsType
  | .lifetime n _ =>
    some (.path "::std::marker::PhantomData" [.ref (some n) false (.tuple [])])
  | .tyParam n => some (.path "::std::marker::PhantomData" [.path n []])
  | .constParam _ => none

/-- Whether a generic parameter is constrained by a stored (non-marker)
field's type of the generated structure. -/
def storedFieldsConstrain (g : GenStruct) (p : GenericParam) : Bool :=
  (g.subFields ++ g.methodFields).any fun f => occursIn (paramName p) f.ty

/-- Statement of claim C9 at one `gen_struct` input: a marker field is
emitted only for generic parameters that are not otherwise constrained by a
stored field's type. -/
def markersOnlyForUnconstrained (vis : Visibility) (ident : String)
    (generics : Generics) (subs : List (String × Generics))
    (methods : List MethodSig) : Prop :=
  ∀ f ∈ (gen_struct vis ident generics subs methods).1.phantoms,
    ∀ p ∈ generics.params,
      markerFor p = some f.ty →
        storedFieldsConstrain (gen_struct vis ident generics subs methods).1 p
          = false

/-- Statement of claim C2's selector clause at one method: the generated
forwarding body invokes storage with the call selector computed by the
classification of section 4.1. -/
def forwardingUsesClassifiedSelector (mock_ident : String) (vis : Visibility)
    (sig : MethodSig) (sub : Option String) : Prop :=
  bodySelector ((gen_mock_method mock_ident false vis sig sub).1.1.body)
    = (method_types sig).1.call

/-- Closed form of the structure fields produced by the `gen_struct` method
loop: one field per non-static method, named after the method and typed with
its expectation container. -/
def methodFieldsOf (methods : List MethodSig) : List StructField :=
  methods.filterMap fun m =>
    if (method_types m).1.is_static then none
    else some (StructField.mk m.ident (method_types m).1.expect_obj)

/-- Closed form of the lazy statics produced by the `gen_struct` method
loop: one mutex-guarded item per static method, name-qualified by the mock
identifier and the method name. -/
def staticsOf (mockIdent : String) (methods : List MethodSig) :
    List StaticItem :=
  methods.filterMap fun m =>
    if (method_types m).1.is_static then
      some (StaticItem.mk (mockIdent ++ "_" ++ m.ident ++ "_expectation")
        (.path "::std::sync::Mutex" [(method_types m).1.expect_obj])
        "::mockall::Expectations::new()")
    else none

/-- Closed form of the diagnostics reported by the `gen_struct` method
loop. -/
def methodDiagsOf (methods : List MethodSig) : List Diag :=
  joinAll (methods.map fun m => (method_types m).2)

/-- Diagnostics of the `PhantomData` loop for one parameter. -/
def paramDiags : GenericParam → List Diag
  | .lifetime _ bs =>
    if bs.isEmpty then []
    else ["automock does not yet support lifetime bounds on structs"]
  | .tyParam _ => []
  | .constParam _ => ["automock does not yet support generic constants"]

/-- Closed form of the items placed in the trait implementation block by
`mock_trait_methods`: the forwarding method for each trait method, the
verbatim copy of each associated type that has a concrete binding. -/
def traitMockItems (mock_ident : String) (traitIdent : String)
    (items : List TraitItem) : List TraitImplItem :=
  items.filterMap fun ti =>
    match ti with
    | .method ms =>
      some (.method
        (gen_mock_method mock_ident false .inherited ms (some traitIdent)).1.1)
    | .assocType n _ (some ty) => some (.assocType n ty)
    | _ => none

/-- Closed form of the expectation methods collected for the second,
inherent implementation block of `mock_trait_methods`. -/
def traitExpects (mock_ident : String) (traitIdent : String)
    (items : List TraitItem) : List ExpectMethod :=
  items.filterMap fun ti =>
    match ti with
    | .method ms =>
      some (gen_mock_method mock_ident false .inherited ms (some traitIdent)).1.2
    | _ => none

/-- Diagnostics of one trait-item iteration of `mock_trait_methods`. -/
def traitItemDiags (mock_ident : String) (traitIdent : String) :
    TraitItem → List Diag
  | .constItem _ => []
  | .method ms =>
    (gen_mock_method mock_ident false .inherited ms (some traitIdent)).2
  | .assocType _ ps d =>
    (if ps.isEmpty then []
     else ["Mockall does not yet support generic associated types"])
      ++ (match d with
          | some _ => []
          | none => ["Associated types must be made concrete for mocking."])
  | .other => ["This impl item is not yet supported by MockAll"]

/-! ## Concrete fixtures for witnesses and counterexamples -/

/-- A plain method signature skeleton. -/
def baseSig (name : String) : MethodSig :=
  { constness := false, unsafety := false, asyncness := false, abi := none,
    ident := name, generics := Generics.mk [], inputs := [], output := none,
    variadic := false }

/-- `fn bar() -> &mut u32;` — a static method with a mutable-reference
return type. -/
def sigStaticRefMut : MethodSig :=
  { baseSig "bar" with output := some (.ref none true (.path "u32" [])) }

/-- `fn foo(&self, x: T) -> T;` — an instance method whose input and output
both mention the struct-level parameter `T`. -/
def sigUsesT : MethodSig :=
  { baseSig "foo" with
      inputs := [.selfRef false, .captured "x" (.path "T" [])],
      output := some (.path "T" []) }

/-- `fn foo(&self, x: u32) -> i64;` — the free instance method of
scenario A. -/
def sigFooU32 : MethodSig :=
  { baseSig "foo" with
      inputs := [.selfRef false, .captured "x" (.path "u32" [])],
      output := some (.path "i64" []) }

/-- `fn bar(x: u32) -> u64;` — the static method of scenario B. -/
def sigBarStatic : MethodSig :=
  { baseSig "bar" with
      inputs := [.captured "x" (.path "u32" [])],
      output := some (.path "u64" []) }

/-- `fn foo<T: 'static>(&self, t: T);` — a generic instance method (its own
generic-parameter list is non-empty). -/
def sigGenericFoo : MethodSig :=
  { baseSig "foo" with
      generics := Generics.mk [.tyParam "T"],
      inputs := [.selfRef false, .captured "t" (.path "T" [])] }

/-- `fn baz(&self) -> &'a u32;` — an instance method returning a reference
with an explicit non-static lifetime. -/
def sigBadLifetime : MethodSig :=
  { baseSig "baz" with
      inputs := [.selfRef false],
      output := some (.ref (some "a") false (.path "u32" [])) }

/-- `fn r(&self) -> &'static u32;` — a reference-returning instance
method. -/
def sigStaticRef : MethodSig :=
  { baseSig "r" with
      inputs := [.selfRef false],
      output := some (.ref (some "static") false (.path "u32" [])) }

/-- `fn next(&mut self) -> Option<u32>;` — the trait method of
scenario C. -/
def sigNext : MethodSig :=
  { baseSig "next" with
      inputs := [.selfRef true],
      output := some (.path "Option" [.path "u32" []]) }

/-- The `Iterator` trait block of scenario C:
`trait Iterator { type Item=u32; fn next(&mut self) -> Option<u32>; }`. -/
def traitIterator : ItemTrait :=
  { unsafety := false, ident := "Iterator", generics := Generics.mk [],
    items := [.assocType "Item" [] (some (.path "u32" [])),
              .method sigNext] }

/-- A specification whose one free method returns `&'a u32`. -/
def mockBadLifetime : Mock :=
  { vis := .publ, name := "Foo", generics := Generics.mk [],
    methods := [sigBadLifetime], traits := [] }

/-- The specification of scenario C: owner `MyIter` implementing the
`Iterator` trait block. -/
def mockMyIter : Mock :=
  { vis := .publ, name := "MyIter", generics := Generics.mk [],
    methods := [], traits := [traitIterator] }

/-- A specification with one free instance method and one static method. -/
def mockFoo : Mock :=
  { vis := .publ, name := "Foo", generics := Generics.mk [],
    methods := [sigFooU32, sigBarStatic], traits := [] }

/-! ## Fold characterizations and list lemmas -/

theorem joinAll_nil {α : Type} : joinAll ([] : List (List α)) = [] := rfl

theorem joinAll_cons {α : Type} (x : List α) (l : List (List α)) :
    joinAll (x :: l) = x ++ joinAll l := rfl

theorem mem_joinAll {α : Type} {x : α} {l : List (List α)} :
    x ∈ joinAll l ↔ ∃ ys ∈ l, x ∈ ys := by
  induction l with
  | nil => simp [joinAll_nil]
  | cons y ys ih => simp [joinAll_cons, List.mem_append, ih]

theorem joinAll_map_ne_nil {α β : Type} {f : β → List α} {l : List β} {x : β}
    (hx : x ∈ l) (h : f x ≠ []) : joinAll (l.map f) ≠ [] := by
  induction l with
  | nil => cases hx
  | cons y ys ih =>
    simp only [List.map_cons, joinAll_cons, ne_eq, List.append_eq_nil]
    rcases List.mem_cons.mp hx with h1 | h1
    · subst h1; intro hc; exact h hc.1
    · intro hc; exact ih h1 hc.2

theorem inputsFold_eq (l : List FnArg) :
    inputsFold l = (l.all (fun a => !isReceiver a), l.filterMap capturedTy) := by
  have go : ∀ (l : List FnArg) (b : Bool) (acc : List RsType),
      l.foldl
        (fun acc a =>
          match a with
          | .captured _ ty => (acc.1, acc.2 ++ [ty])
          | .selfRef _ => (false, acc.2)
          | .selfValue => (false, acc.2))
        (b, acc)
      = (b && l.all (fun a => !isReceiver a), acc ++ l.filterMap capturedTy) := by
    intro l
    induction l with
    | nil => intro b acc; simp
    | cons x xs ih =>
      intro b acc
      cases x with
      | captured p t =>
        simp [List.foldl_cons, ih, isReceiver, capturedTy, List.filterMap_cons]
      | selfRef m =>
        simp [List.foldl_cons, ih, isReceiver, capturedTy, List.filterMap_cons]
      | selfValue =>
        simp [List.foldl_cons, ih, isReceiver, capturedTy, List.filterMap_cons]
  simpa [inputsFold] using go l true []

theorem method_types_is_static (sig : MethodSig) :
    (method_types sig).1.is_static = sig.inputs.all (fun a => !isReceiver a) := by
  simp [method_types, inputsFold_eq]

theorem method_types_input_type (sig : MethodSig) :
    (method_types sig).1.input_type = sig.inputs.filterMap capturedTy := by
  simp [method_types, inputsFold_eq]

theorem hasBadRetLifetime_spec {sig : MethodSig}
    (h : hasBadRetLifetime sig = true) :
    ∃ l m e, sig.output = some (.ref (some l) m e) ∧ l ≠ "static" := by
  unfold hasBadRetLifetime at h
  split at h
  · next l m e heq => exact ⟨l, m, e, heq, by simpa using h⟩
  · simp at h

theorem method_types_bad_lifetime (sig : MethodSig) (l : String) (m : Bool)
    (e : RsType) (hout : sig.output = some (.ref (some l) m e))
    (hl : l ≠ "static") : (method_types sig).2 ≠ [] := by
  cases m <;> simp [method_types, hout, hl]

theorem method_types_bad_msg (sig : MethodSig) (l : String) (m : Bool)
    (e : RsType) (hout : sig.output = some (.ref (some l) m e))
    (hl : l ≠ "static") :
    "Non-static non-self lifetimes are not yet supported"
      ∈ (method_types sig).2 := by
  cases m <;> simp [method_types, hout, hl]

theorem mem_joinAll_of_mem {α β : Type} {f : β → List α} {x : α} {s : β}
    {l : List β} (hs : s ∈ l) (hx : x ∈ f s) : x ∈ joinAll (l.map f) :=
  mem_joinAll.mpr ⟨f s, List.mem_map_of_mem f hs, hx⟩

theorem mem_methodDiagsOf {methods : List MethodSig} {m : MethodSig} {d : Diag}
    (hm : m ∈ methods) (hd : d ∈ (method_types m).2) :
    d ∈ methodDiagsOf methods :=
  mem_joinAll_of_mem hm hd

theorem genStruct_fold (mi : String) (ms : List MethodSig) :
    ∀ fs ss ds,
      ms.foldl (genStructStep mi) (fs, ss, ds)
        = (fs ++ methodFieldsOf ms, ss ++ staticsOf mi ms,
           ds ++ methodDiagsOf ms) := by
  induction ms with
  | nil => intro fs ss ds; simp [methodFieldsOf, staticsOf, methodDiagsOf, joinAll]
  | cons m rest ih =>
    intro fs ss ds
    by_cases h : (method_types m).1.is_static
    · simp only [List.foldl_cons, genStructStep, h, if_true, ih,
        methodFieldsOf, staticsOf, methodDiagsOf, List.filterMap_cons,
        List.map_cons, joinAll_cons, List.append_assoc]
      simp [h, methodFieldsOf, staticsOf, methodDiagsOf]
    · simp only [List.foldl_cons, genStructStep, h, if_false, ih,
        methodFieldsOf, staticsOf, methodDiagsOf, List.filterMap_cons,
        List.map_cons, joinAll_cons, List.append_assoc]
      simp [h, methodFieldsOf, staticsOf, methodDiagsOf]

theorem gen_struct_methodFields (vis : Visibility) (ident : String)
    (generics : Generics) (subs : List (String × Generics))
    (methods : List MethodSig) :
    (gen_struct vis ident generics subs methods).1.methodFields
      = methodFieldsOf methods := by
  simp [gen_struct, genStruct_fold]

theorem gen_struct_statics (vis : Visibility) (ident : String)
    (generics : Generics) (subs : List (String × Generics))
    (methods : List MethodSig) :
    (gen_struct vis ident generics subs methods).1.statics
      = staticsOf (gen_mock_ident ident) methods := by
  simp [gen_struct, genStruct_fold]

theorem gen_struct_phantoms (vis : Visibility) (ident : String)
    (generics : Generics) (subs : List (String × Generics))
    (methods : List MethodSig) :
    (gen_struct vis ident generics subs methods).1.phantoms
      = (phantomFields generics.params).1 := by
  simp [gen_struct]

theorem gen_struct_diags (vis : Visibility) (ident : String)
    (generics : Generics) (subs : List (String × Generics))
    (methods : List MethodSig) :
    (gen_struct vis ident generics subs methods).2
      = methodDiagsOf methods ++ (phantomFields generics.params).2 := by
  simp [gen_struct, genStruct_fold]

theorem methodDiagsOf_ne_nil {methods : List MethodSig} {m : MethodSig}
    (hm : m ∈ methods) (h : (method_types m).2 ≠ []) :
    methodDiagsOf methods ≠ [] :=
  joinAll_map_ne_nil hm h

theorem phantomFieldsAux_fst (params : List GenericParam) :
    ∀ i, (phantomFieldsAux i params).1
      = (params.enumFrom i).filterMap
          (fun ip => (markerFor ip.2).map
            fun t => StructField.mk ("_t" ++ toString ip.1) t) := by
  induction params with
  | nil => intro i; simp [phantomFieldsAux]
  | cons p rest ih =>
    intro i
    cases p with
    | lifetime n bs =>
      simp [phantomFieldsAux, ih, List.enumFrom_cons, List.filterMap_cons,
        markerFor]
    | tyParam n =>
      simp [phantomFieldsAux, ih, List.enumFrom_cons, List.filterMap_cons,
        markerFor]
    | constParam n =>
      simp [phantomFieldsAux, ih, List.enumFrom_cons, List.filterMap_cons,
        markerFor]

theorem phantomFieldsAux_snd (params : List GenericParam) :
    ∀ i, (phantomFieldsAux i params).2 = joinAll (params.map paramDiags) := by
  induction params with
  | nil => intro i; simp [phantomFieldsAux, joinAll_nil]
  | cons p rest ih =>
    intro i
    cases p with
    | lifetime n bs => simp [phantomFieldsAux, ih, paramDiags, joinAll_cons]
    | tyParam n => simp [phantomFieldsAux, ih, paramDiags, joinAll_cons]
    | constParam n => simp [phantomFieldsAux, ih, paramDiags, joinAll_cons]

theorem traitFold (mi : String) (tid : String) (items : List TraitItem) :
    ∀ a b c, items.foldl (traitStep mi tid) (a, b, c)
      = (a ++ traitMockItems mi tid items, b ++ traitExpects mi tid items,
         c ++ joinAll (items.map (traitItemDiags mi tid))) := by
  induction items with
  | nil =>
    intro a b c
    simp [traitMockItems, traitExpects, joinAll_nil]
  | cons ti rest ih =>
    intro a b c
    cases ti with
    | constItem n =>
      simp [List.foldl_cons, traitStep, ih, traitMockItems, traitExpects,
        traitItemDiags, joinAll_cons, List.filterMap_cons]
    | method ms =>
      simp [List.foldl_cons, traitStep, ih, traitMockItems, traitExpects,
        traitItemDiags, joinAll_cons, List.filterMap_cons, List.append_assoc]
    | assocType n ps d =>
      cases d with
      | none =>
        simp [List.foldl_cons, traitStep, ih, traitMockItems, traitExpects,
          traitItemDiags, joinAll_cons, List.filterMap_cons, List.append_assoc]
      | some ty =>
        simp [List.foldl_cons, traitStep, ih, traitMockItems, traitExpects,
          traitItemDiags, joinAll_cons, List.filterMap_cons, List.append_assoc]
    | other =>
      simp [List.foldl_cons, traitStep, ih, traitMockItems, traitExpects,
        traitItemDiags, joinAll_cons, List.filterMap_cons, List.append_assoc]

theorem mock_trait_methods_eq (mi : String) (sg : Option Generics)
    (item : ItemTrait) :
    mock_trait_methods mi sg item
      = ([OutputItem.implBlock
            (.traitImpl item.unsafety (sg.getD item.generics) item.ident
              item.generics.typeArgs mi (sg.getD item.generics).typeArgs
              (traitMockItems mi item.ident item.items)),
          OutputItem.implBlock
            (.inherentImpl (sg.getD item.generics) mi
              (sg.getD item.generics).typeArgs
              ((traitExpects mi item.ident item.items).map InherentItem.expect))],
         joinAll (item.items.map (traitItemDiags mi item.ident))) := by
  cases sg <;> simp [mock_trait_methods, traitFold]

theorem gen_mock_method_mm_vis (mi : String) (d : Bool) (v : Visibility)
    (sig : MethodSig) (sub : Option String) :
    (gen_mock_method mi d v sig sub).1.1.vis = v := rfl

theorem gen_mock_method_mm_sig (mi : String) (d : Bool) (v : Visibility)
    (sig : MethodSig) (sub : Option String) :
    (gen_mock_method mi d v sig sub).1.1.constness = sig.constness
    ∧ (gen_mock_method mi d v sig sub).1.1.unsafety = sig.unsafety
    ∧ (gen_mock_method mi d v sig sub).1.1.asyncness = sig.asyncness
    ∧ (gen_mock_method mi d v sig sub).1.1.abi = sig.abi
    ∧ (gen_mock_method mi d v sig sub).1.1.ident = sig.ident
    ∧ (gen_mock_method mi d v sig sub).1.1.generics = sig.generics
    ∧ (gen_mock_method mi d v sig sub).1.1.inputs = sig.inputs
    ∧ (gen_mock_method mi d v sig sub).1.1.output = sig.output :=
  ⟨rfl, rfl, rfl, rfl, rfl, rfl, rfl, rfl⟩

theorem gen_mock_method_em_vis (mi : String) (d : Bool) (v : Visibility)
    (sig : MethodSig) (sub : Option String) :
    (gen_mock_method mi d v sig sub).1.2.vis = .publ := by
  cases h : (method_types sig).1.is_static <;> simp [gen_mock_method, h]

theorem gen_mock_method_body (mi : String) (d : Bool) (v : Visibility)
    (sig : MethodSig) (sub : Option String) :
    (gen_mock_method mi d v sig sub).1.1.body
      = if (method_types sig).1.is_static then
          .staticCall (staticExpectNameOf mi sub sig.ident) (argPats sig.inputs)
        else
          .instanceCall (instanceLocOf sub sig.ident) (method_types sig).1.call
            (method_types sig).1.call_turbofish (argPats sig.inputs) := by
  cases sub <;> cases h : (method_types sig).1.is_static <;>
    simp [gen_mock_method, h, staticExpectNameOf, subNameOf, instanceLocOf,
      argPats]

theorem gen_mock_method_em (mi : String) (d : Bool) (v : Visibility)
    (sig : MethodSig) (sub : Option String) :
    (gen_mock_method mi d v sig sub).1.2
      = if (method_types sig).1.is_static then
          ExpectMethod.mk ("expect_" ++ sig.ident) .publ
            (.staticGuard
              (Generics.mk (sig.generics.params ++ [.lifetime "guard" []]))
              (method_types sig).1.input_type (method_types sig).1.output_type
              (staticExpectNameOf mi sub sig.ident))
        else
          ExpectMethod.mk ("expect_" ++ sig.ident) .publ
            (.instanceHandle sig.generics (method_types sig).1.expectation
              (method_types sig).1.input_type (method_types sig).1.output_type
              (instanceLocOf sub sig.ident)
              (method_types sig).1.call_turbofish) := by
  cases sub <;> cases h : (method_types sig).1.is_static <;>
    simp [gen_mock_method, h, staticExpectNameOf, subNameOf, instanceLocOf]

theorem gen_mock_method_diags (mi : String) (d : Bool) (v : Visibility)
    (sig : MethodSig) (sub : Option String) :
    (gen_mock_method mi d v sig sub).2
      = (if sig.variadic then
           ["MockAll does not yet support variadic functions"]
         else []) ++ (method_types sig).2 := rfl

theorem filterMap_filter_nonReceiver (l : List FnArg) :
    (l.filter fun a => !isReceiver a).filterMap capturedTy
      = l.filterMap capturedTy := by
  induction l with
  | nil => rfl
  | cons a rest ih =>
    cases a with
    | selfRef m =>
      rw [List.filter_cons_of_neg (by simp [isReceiver]),
        List.filterMap_cons_none
          (show capturedTy (FnArg.selfRef m) = none from rfl)]
      exact ih
    | selfValue =>
      rw [List.filter_cons_of_neg (by simp [isReceiver]),
        List.filterMap_cons_none
          (show capturedTy FnArg.selfValue = none from rfl)]
      exact ih
    | captured p t =>
      rw [List.filter_cons_of_pos (by simp [isReceiver]),
        List.filterMap_cons_some
          (show capturedTy (FnArg.captured p t) = some t from rfl),
        List.filterMap_cons_some
          (show capturedTy (FnArg.captured p t) = some t from rfl), ih]

theorem storageKindOf_value : storageKindOf "Expectation" = some .Value := rfl

theorem storageKindOf_refret :
    storageKindOf "RefExpectation" = some .RefReturning := rfl

theorem storageKindOf_mutrefret :
    storageKindOf "RefMutExpectation" = some .MutRefReturning := rfl

/-! ## Claim theorems -/

/-- C1: classification is a pure function of the return type's syntactic
shape assigning exactly one storage kind; no return type or unit yields
storage kind Value, call selector `call` and unit output; a non-reference
return type `T` yields Value, `call`, `T`; a `&T` return with elided or
static lifetime yields RefReturning, `call`, `T`; a `&mut T` return with
elided or static lifetime yields MutRefReturning, `call_mut`, `T`. -/
theorem claim_C1 (sig : MethodSig) :
    (∃ k, storageKindOf (method_types sig).1.expectation = some k) ∧
    (∀ sig2 : MethodSig, sig2.output = sig.output →
      ((method_types sig2).1.expectation, (method_types sig2).1.call,
       (method_types sig2).1.output_type)
        = ((method_types sig).1.expectation, (method_types sig).1.call,
           (method_types sig).1.output_type)) ∧
    ((sig.output = none ∨ sig.output = some (.tuple [])) →
      storageKindOf (method_types sig).1.expectation = some .Value ∧
      (method_types sig).1.call = "call" ∧
      (method_types sig).1.output_type = .tuple []) ∧
    (∀ t, sig.output = some t → (∀ lt mu e, t ≠ .ref lt mu e) →
      storageKindOf (method_types sig).1.expectation = some .Value ∧
      (method_types sig).1.call = "call" ∧
      (method_types sig).1.output_type = t) ∧
    (∀ lt t, sig.output = some (.ref lt false t) →
      (lt = none ∨ lt = some "static") →
      storageKindOf (method_types sig).1.expectation = some .RefReturning ∧
      (method_types sig).1.call = "call" ∧
      (method_types sig).1.output_type = t) ∧
    (∀ lt t, sig.output = some (.ref lt true t) →
      (lt = none ∨ lt = some "static") →
      storageKindOf (method_types sig).1.expectation = some .MutRefReturning ∧
      (method_types sig).1.call = "call_mut" ∧
      (method_types sig).1.output_type = t) := by
  refine ⟨?_, ?_, ?_, ?_, ?_, ?_⟩
  · rcases hout : sig.output with _ | ty
    · exact ⟨.Value, by simp [method_types, hout, storageKindOf_value]⟩
    · rcases ty with es | ⟨lt, mu, e⟩ | ⟨n, args⟩ | n
      · exact ⟨.Value, by simp [method_types, hout, storageKindOf_value]⟩
      · cases mu
        · exact ⟨.RefReturning,
            by simp [method_types, hout, storageKindOf_refret]⟩
        · exact ⟨.MutRefReturning,
            by simp [method_types, hout, storageKindOf_mutrefret]⟩
      · exact ⟨.Value, by simp [method_types, hout, storageKindOf_value]⟩
      · exact ⟨.Value, by simp [method_types, hout, storageKindOf_value]⟩
  · intro sig2 h
    simp only [method_types]
    rw [h]
  · intro h
    rcases h with h | h <;> simp [method_types, h, storageKindOf_value]
  · intro t ht hnr
    rcases t with es | ⟨lt, mu, e⟩ | ⟨n, args⟩ | n
    · simp [method_types, ht, storageKindOf_value]
    · exact absurd rfl (hnr lt mu e)
    · simp [method_types, ht, storageKindOf_value]
    · simp [method_types, ht, storageKindOf_value]
  · intro lt t ht hlt
    simp [method_types, ht, storageKindOf_refret]
  · intro lt t ht hlt
    simp [method_types, ht, storageKindOf_mutrefret]

/-- Witness for C1: the unit, reference and mutable-reference rows of the
section 4.1 table, instantiated at concrete signatures. -/
theorem claim_C1_witness :
    (storageKindOf (method_types (baseSig "f")).1.expectation = some .Value ∧
     (method_types (baseSig "f")).1.call = "call" ∧
     (method_types (baseSig "f")).1.output_type = .tuple []) ∧
    (storageKindOf (method_types sigStaticRef).1.expectation
        = some .RefReturning ∧
     (method_types sigStaticRef).1.call = "call" ∧
     (method_types sigStaticRef).1.output_type = .path "u32" []) ∧
    (storageKindOf (method_types sigStaticRefMut).1.expectation
        = some .MutRefReturning ∧
     (method_types sigStaticRefMut).1.call = "call_mut" ∧
     (method_types sigStaticRefMut).1.output_type = .path "u32" []) :=
  ⟨(claim_C1 (baseSig "f")).2.2.1 (Or.inl rfl),
   (claim_C1 sigStaticRef).2.2.2.2.1 (some "static") (.path "u32" []) rfl
     (Or.inr rfl),
   (claim_C1 sigStaticRefMut).2.2.2.2.2 none (.path "u32" []) rfl
     (Or.inl rfl)⟩

/-- C5: classification yields `is_static = true` exactly when the signature
has no receiver argument, and the input tuple is the ordered list of all
non-receiver argument types. -/
theorem claim_C5 (sig : MethodSig) :
    ((method_types sig).1.is_static = true ↔
      ∀ a ∈ sig.inputs, isReceiver a = false) ∧
    (method_types sig).1.input_type
      = (sig.inputs.filter fun a => !isReceiver a).filterMap capturedTy := by
  constructor
  · rw [method_types_is_static]
    simp [List.all_eq_true]
  · rw [method_types_input_type, filterMap_filter_nonReceiver]

/-- Witness for C5: a receiverless signature is static; the input tuple of
scenario A's method is `(u32)` with the receiver excluded. -/
theorem claim_C5_witness :
    (method_types sigBarStatic).1.is_static = true ∧
    (method_types sigFooU32).1.input_type = [.path "u32" []] :=
  ⟨(claim_C5 sigBarStatic).1.mpr (by decide),
   by rw [(claim_C5 sigFooU32).2]; decide⟩

theorem method_types_turbofish (sig : MethodSig) :
    (method_types sig).1.call_turbofish
      = if sig.generics.params.isEmpty then none
        else some (.tuple (method_types sig).1.input_type,
                   (method_types sig).1.output_type) := by
  by_cases h : sig.generics.params.isEmpty <;> simp [method_types, h]

theorem method_types_expect_obj (sig : MethodSig) :
    (method_types sig).1.expect_obj
      = if sig.generics.params.isEmpty then
          .path ("::mockall::" ++ (method_types sig).1.expectation ++ "s")
            [.tuple (method_types sig).1.input_type,
             (method_types sig).1.output_type]
        else
          .path ("::mockall::Generic" ++ (method_types sig).1.expectation ++ "s")
            [] := by
  by_cases h : sig.generics.params.isEmpty <;> simp [method_types, h]

/-- C6: `is_generic` holds exactly when the method's own generic-parameter
list is non-empty (only the signature's own generics are consulted); a
generic non-static method is stored in the type-erased expectation container
for its storage kind, carrying no type parameters, and both the forwarding
body and the expectation-configuration method carry explicit type arguments
equal to the pair of input tuple and output type. -/
theorem claim_C6 (sig : MethodSig) :
    ((method_types sig).1.call_turbofish ≠ none ↔ sig.generics.params ≠ []) ∧
    (sig.generics.params ≠ [] →
      (method_types sig).1.call_turbofish
        = some (.tuple (method_types sig).1.input_type,
                (method_types sig).1.output_type)) ∧
    (sig.generics.params ≠ [] →
      (method_types sig).1.expect_obj
        = .path ("::mockall::Generic" ++ (method_types sig).1.expectation ++ "s")
            []) ∧
    (sig.generics.params ≠ [] → (method_types sig).1.is_static = false →
      ∀ (mi : String) (d : Bool) (v : Visibility) (sub : Option String),
        bodyTurbofishOf ((gen_mock_method mi d v sig sub).1.1.body)
          = some (.tuple (method_types sig).1.input_type,
                  (method_types sig).1.output_type) ∧
        (gen_mock_method mi d v sig sub).1.2.data
          = .instanceHandle sig.generics (method_types sig).1.expectation
              (method_types sig).1.input_type (method_types sig).1.output_type
              (instanceLocOf sub sig.ident)
              (method_types sig).1.call_turbofish) ∧
    (sig.generics.params ≠ [] → (method_types sig).1.is_static = false →
      ∀ (v : Visibility) (i : String) (g : Generics)
        (subs : List (String × Generics)),
        (gen_struct v i g subs [sig]).1.methodFields
          = [StructField.mk sig.ident (method_types sig).1.expect_obj]) := by
  have hemp : sig.generics.params ≠ [] → sig.generics.params.isEmpty = false := by
    intro h
    rcases hp : sig.generics.params with _ | ⟨p, ps⟩
    · exact absurd hp h
    · rfl
  refine ⟨?_, ?_, ?_, ?_, ?_⟩
  · rw [method_types_turbofish]
    rcases hp : sig.generics.params with _ | ⟨p, ps⟩ <;> simp [hp]
  · intro h
    rw [method_types_turbofish, hemp h]
    rfl
  · intro h
    rw [method_types_expect_obj, hemp h]
    rfl
  · intro hg hs mi d v sub
    constructor
    · rw [gen_mock_method_body]
      simp only [hs, if_false, Bool.false_eq_true, bodyTurbofishOf]
      rw [method_types_turbofish, hemp hg]
      rfl
    · rw [gen_mock_method_em]
      simp [hs]
  · intro hg hs v i g subs
    rw [gen_struct_methodFields]
    simp [methodFieldsOf, hs]

/-- Witness for C6: the generic instance method `fn foo<T>(&self, t: T)` is
stored type-erased and its forwarding body carries the explicit type
arguments `(T), ()`. -/
theorem claim_C6_witness :
    bodyTurbofishOf
        ((gen_mock_method "MockSomeStruct" false .publ sigGenericFoo none).1.1.body)
      = some (.tuple [.path "T" []], .tuple []) ∧
    (gen_struct .publ "SomeStruct" (Generics.mk []) [] [sigGenericFoo]).1.methodFields
      = [StructField.mk "foo" (.path "::mockall::GenericExpectations" [])] := by
  have h := claim_C6 sigGenericFoo
  constructor
  · have h4 := (h.2.2.2.1 (by decide) (by decide)
      "MockSomeStruct" false .publ none).1
    rw [h4]
    decide
  · have h5 := h.2.2.2.2 (by decide) (by decide) .publ "SomeStruct"
      (Generics.mk []) []
    rw [h5]
    decide

/-- C7: the expectation method is named `expect_` plus the method name; for a
non-static method it takes `&mut self` and returns a mutable reference into
the stored container's configuration handle parameterized by the input tuple
and output type; for a static method it takes no receiver, carries one extra
explicit lifetime parameter, and returns an `ExpectationGuard` over that
lifetime and the same pair, holding the process-wide lock. -/
theorem claim_C7 (mi : String) (d : Bool) (v : Visibility) (sig : MethodSig)
    (sub : Option String) :
    (gen_mock_method mi d v sig sub).1.2.ident = "expect_" ++ sig.ident ∧
    ((method_types sig).1.is_static = false →
      (gen_mock_method mi d v sig sub).1.2.data
        = .instanceHandle sig.generics (method_types sig).1.expectation
            (method_types sig).1.input_type (method_types sig).1.output_type
            (instanceLocOf sub sig.ident)
            (method_types sig).1.call_turbofish) ∧
    ((method_types sig).1.is_static = true →
      (gen_mock_method mi d v sig sub).1.2.data
        = .staticGuard
            (Generics.mk (sig.generics.params ++ [.lifetime "guard" []]))
            (method_types sig).1.input_type (method_types sig).1.output_type
            (staticExpectNameOf mi sub sig.ident)) := by
  refine ⟨?_, ?_, ?_⟩
  · cases h : (method_types sig).1.is_static <;> simp [gen_mock_method_em, h]
  · intro h
    simp [gen_mock_method_em, h]
  · intro h
    simp [gen_mock_method_em, h]

/-- Witness for C7: the static method of scenario B yields a guard-returning
`expect_bar` with the pushed `'guard` lifetime, and the instance method of
scenario A yields `expect_foo`. -/
theorem claim_C7_witness :
    (gen_mock_method "MockFoo" false .publ sigBarStatic none).1.2.data
      = .staticGuard (Generics.mk [.lifetime "guard" []]) [.path "u32" []]
          (.path "u64" []) "MockFoo_bar_expectation" ∧
    (gen_mock_method "MockFoo" false .publ sigFooU32 none).1.2.ident
      = "expect_foo" := by
  constructor
  · have h := (claim_C7 "MockFoo" false .publ sigBarStatic none).2.2 (by decide)
    rw [h]
    decide
  · have h := (claim_C7 "MockFoo" false .publ sigFooU32 none).1
    rw [h]
    decide

/-- Counterexample to C2: for the static method `fn bar() -> &mut u32;` the
classification's call selector is `call_mut`, but the generated forwarding
body invokes the process-wide storage with the literal selector `call`, so
the body does not use the selector determined by the section 4.1 table. -/
theorem claim_C2_counterexample :
    ¬ forwardingUsesClassifiedSelector "MockFoo" .publ sigStaticRefMut none := by
  unfold forwardingUsesClassifiedSelector
  decide

/-- C2 amended: the forwarding body of a non-static method looks up the
instance field (free method) or nested sub-structure field (trait method)
and invokes it with the classified call selector, passing the non-receiver
arguments as a tuple in declaration order, with the explicit type arguments
exactly when the method is generic; the forwarding body of a static method
looks up the process-wide static storage and invokes it in one critical
section under the mutex, but always with the fixed selector `call` and
without explicit type arguments. -/
theorem claim_C2_amended (mi : String) (d : Bool) (v : Visibility)
    (sig : MethodSig) (sub : Option String) :
    ((method_types sig).1.is_static = false →
      (gen_mock_method mi d v sig sub).1.1.body
        = .instanceCall (instanceLocOf sub sig.ident) (method_types sig).1.call
            (method_types sig).1.call_turbofish (argPats sig.inputs)) ∧
    ((method_types sig).1.is_static = true →
      (gen_mock_method mi d v sig sub).1.1.body
        = .staticCall (staticExpectNameOf mi sub sig.ident)
            (argPats sig.inputs)) := by
  constructor <;> intro h <;> simp [gen_mock_method_body, h]

/-- Witness for C2 (amended): scenario A's instance method forwards
`self.foo.call((x))`; scenario B's static method forwards
`MockFoo_bar_expectation.lock().unwrap().call((x))`. -/
theorem claim_C2_witness :
    (gen_mock_method "MockFoo" false .publ sigFooU32 none).1.1.body
      = .instanceCall (.selfField "foo") "call" none ["x"] ∧
    (gen_mock_method "MockFoo" false .publ sigBarStatic none).1.1.body
      = .staticCall "MockFoo_bar_expectation" ["x"] := by
  constructor
  · have h := (claim_C2_amended "MockFoo" false .publ sigFooU32 none).1
      (by decide)
    rw [h]
    decide
  · have h := (claim_C2_amended "MockFoo" false .publ sigBarStatic none).2
      (by decide)
    rw [h]
    decide

theorem Mock_gen_items (m : Mock) :
    (Mock.gen m).1
      = [OutputItem.structDecl (gen_struct m.vis m.name m.generics
           (m.traits.map fun t => (t.ident, t.generics)) m.methods).1]
        ++ (m.traits.map fun t =>
             gen_struct .inherited (m.name ++ "_" ++ t.ident) t.generics []
               (traitMethodSigs t)).map (fun r => OutputItem.structDecl r.1)
        ++ [OutputItem.implBlock
             (.inherentImpl m.generics (gen_mock_ident m.name)
               m.generics.typeArgs
               ((m.methods.map fun meth =>
                   gen_mock_method (gen_mock_ident m.name) false .publ meth
                     none).foldl
                 (fun acc r =>
                   acc ++ [InherentItem.mock r.1.1, InherentItem.expect r.1.2])
                 []))]
        ++ joinAll ((m.traits.map fun t =>
             mock_trait_methods (gen_mock_ident m.name) (some m.generics)
               t).map Prod.fst) := rfl

theorem Mock_gen_diags (m : Mock) :
    (Mock.gen m).2
      = (gen_struct m.vis m.name m.generics
           (m.traits.map fun t => (t.ident, t.generics)) m.methods).2
        ++ joinAll ((m.traits.map fun t =>
             gen_struct .inherited (m.name ++ "_" ++ t.ident) t.generics []
               (traitMethodSigs t)).map Prod.snd)
        ++ joinAll ((m.methods.map fun meth =>
             gen_mock_method (gen_mock_ident m.name) false .publ meth
               none).map Prod.snd)
        ++ joinAll ((m.traits.map fun t =>
             mock_trait_methods (gen_mock_ident m.name) (some m.generics)
               t).map Prod.snd) := rfl

theorem staticsOf_length (mi : String) (methods : List MethodSig) :
    (staticsOf mi methods).length
      = (methods.filter fun m => (method_types m).1.is_static).length := by
  induction methods with
  | nil => rfl
  | cons m rest ih =>
    by_cases h : (method_types m).1.is_static
    · rw [staticsOf, List.filterMap_cons, List.filter_cons]
      simp only [h, if_true]
      simpa [staticsOf] using ih
    · rw [staticsOf, List.filterMap_cons, List.filter_cons]
      simp only [h, if_false]
      simpa [staticsOf] using ih

/-- C3: a static method contributes no field to the generated structure and
instead registers exactly one process-wide lazily-initialized item: a
mutex-guarded expectation container whose name is qualified by the mock
identifier and the method name (and, through the per-trait sub-structures of
`Mock.gen`, by the trait name for a trait method), created empty with
`::mockall::Expectations::new()` inside the `lazy_static` block. -/
theorem claim_C3 (vis : Visibility) (ident : String) (generics : Generics)
    (subs : List (String × Generics)) (methods : List MethodSig) :
    (gen_struct vis ident generics subs methods).1.methodFields
      = methodFieldsOf methods ∧
    (gen_struct vis ident generics subs methods).1.statics
      = staticsOf (gen_mock_ident ident) methods ∧
    (staticsOf (gen_mock_ident ident) methods).length
      = (methods.filter fun m => (method_types m).1.is_static).length ∧
    (∀ m ∈ methods, (method_types m).1.is_static = true →
      StaticItem.mk (gen_mock_ident ident ++ "_" ++ m.ident ++ "_expectation")
          (.path "::std::sync::Mutex" [(method_types m).1.expect_obj])
          "::mockall::Expectations::new()"
        ∈ (gen_struct vis ident generics subs methods).1.statics) ∧
    (∀ (mock : Mock), ∀ t ∈ mock.traits,
      OutputItem.structDecl
          (gen_struct .inherited (mock.name ++ "_" ++ t.ident) t.generics []
            (traitMethodSigs t)).1
        ∈ (Mock.gen mock).1) := by
  refine ⟨gen_struct_methodFields _ _ _ _ _, gen_struct_statics _ _ _ _ _,
    staticsOf_length _ _, ?_, ?_⟩
  · intro m hm h
    rw [gen_struct_statics]
    exact List.mem_filterMap.mpr ⟨m, hm, by simp [h]⟩
  · intro mock t ht
    have hmem : OutputItem.structDecl
        (gen_struct .inherited (mock.name ++ "_" ++ t.ident) t.generics []
          (traitMethodSigs t)).1
        ∈ (mock.traits.map fun tr =>
            gen_struct .inherited (mock.name ++ "_" ++ tr.ident) tr.generics []
              (traitMethodSigs tr)).map (fun r => OutputItem.structDecl r.1) :=
      List.mem_map_of_mem _ (List.mem_map_of_mem _ ht)
    rw [Mock_gen_items]
    simp only [List.mem_append]
    exact Or.inl (Or.inl (Or.inr hmem))

/-- Witness for C3: scenario B's specification registers the single
mutex-guarded static `MockFoo_bar_expectation`, and scenario C's trait
sub-structure appears in the generated output. -/
theorem claim_C3_witness :
    StaticItem.mk "MockFoo_bar_expectation"
        (.path "::std::sync::Mutex"
          [.path "::mockall::Expectations"
            [.tuple [.path "u32" []], .path "u64" []]])
        "::mockall::Expectations::new()"
      ∈ (gen_struct .publ "Foo" (Generics.mk []) []
          [sigFooU32, sigBarStatic]).1.statics ∧
    OutputItem.structDecl
        (gen_struct .inherited "MyIter_Iterator" (Generics.mk []) []
          (traitMethodSigs traitIterator)).1
      ∈ (Mock.gen mockMyIter).1 := by
  constructor
  · exact (claim_C3 .publ "Foo" (Generics.mk []) []
      [sigFooU32, sigBarStatic]).2.2.2.1 sigBarStatic (by decide) (by decide)
  · exact (claim_C3 .publ "X" (Generics.mk []) [] []).2.2.2.2 mockMyIter
      traitIterator (by decide)

/-- C4: a specification containing a method (free or trait) whose return
type is a reference with an explicit lifetime other than static fails with
the unsupported-lifetime diagnostic and produces no usable output. -/
theorem claim_C4 (m : Mock)
    (h : (∃ s ∈ m.methods, hasBadRetLifetime s = true) ∨
         (∃ t ∈ m.traits, ∃ s ∈ traitMethodSigs t,
            hasBadRetLifetime s = true)) :
    usableOutput m = none ∧
    "Non-static non-self lifetimes are not yet supported"
      ∈ (Mock.gen m).2 := by
  have hmsg : "Non-static non-self lifetimes are not yet supported"
      ∈ (Mock.gen m).2 := by
    rw [Mock_gen_diags]
    rcases h with ⟨s, hs, hbad⟩ | ⟨t, ht, s, hs, hbad⟩
    · obtain ⟨l, mu, e, hout, hl⟩ := hasBadRetLifetime_spec hbad
      have h1 := method_types_bad_msg s l mu e hout hl
      have h2 : "Non-static non-self lifetimes are not yet supported"
          ∈ methodDiagsOf m.methods := mem_methodDiagsOf hs h1
      have h3 : "Non-static non-self lifetimes are not yet supported"
          ∈ (gen_struct m.vis m.name m.generics
              (m.traits.map fun t => (t.ident, t.generics)) m.methods).2 := by
        rw [gen_struct_diags]
        exact List.mem_append.mpr (Or.inl h2)
      exact List.mem_append.mpr (Or.inl (List.mem_append.mpr
        (Or.inl (List.mem_append.mpr (Or.inl h3)))))
    · obtain ⟨l, mu, e, hout, hl⟩ := hasBadRetLifetime_spec hbad
      have h1 := method_types_bad_msg s l mu e hout hl
      have h2 : "Non-static non-self lifetimes are not yet supported"
          ∈ methodDiagsOf (traitMethodSigs t) := mem_methodDiagsOf hs h1
      have h3 : "Non-static non-self lifetimes are not yet supported"
          ∈ (gen_struct .inherited (m.name ++ "_" ++ t.ident) t.generics []
              (traitMethodSigs t)).2 := by
        rw [gen_struct_diags]
        exact List.mem_append.mpr (Or.inl h2)
      have h4 : "Non-static non-self lifetimes are not yet supported"
          ∈ joinAll ((m.traits.map fun t =>
              gen_struct .inherited (m.name ++ "_" ++ t.ident) t.generics []
                (traitMethodSigs t)).map Prod.snd) := by
        rw [List.map_map]
        exact mem_joinAll_of_mem ht h3
      exact List.mem_append.mpr (Or.inl (List.mem_append.mpr
        (Or.inl (List.mem_append.mpr (Or.inr h4)))))
  have hd : (Mock.gen m).2 ≠ [] := by
    intro hc
    rw [hc] at hmsg
    cases hmsg
  exact ⟨by simp [usableOutput, hd], hmsg⟩

/-- Witness for C4: the specification with free method
`fn baz(&self) -> &'a u32;` yields no usable output and reports the
unsupported-lifetime diagnostic. -/
theorem claim_C4_witness :
    usableOutput mockBadLifetime = none ∧
    "Non-static non-self lifetimes are not yet supported"
      ∈ (Mock.gen mockBadLifetime).2 :=
  claim_C4 mockBadLifetime (Or.inl ⟨sigBadLifetime, by decide, by decide⟩)

/-- Counterexample to C9: in the structure generated for one type parameter
`T` and the method `fn foo(&self, x: T) -> T;`, the stored field `foo` is
typed `::mockall::Expectations<(T), T>` — so `T` is constrained by a stored
field's type — yet the marker field `_t0: PhantomData<T>` is still emitted.
The generator emits one marker per declared parameter unconditionally. -/
theorem claim_C9_counterexample :
    ¬ markersOnlyForUnconstrained .inherited "ExternalStruct_Foo"
        (Generics.mk [.tyParam "T"]) [] [sigUsesT] := by
  unfold markersOnlyForUnconstrained
  decide

/-- C9 amended: a marker field is emitted for every declared generic
lifetime or type parameter, whether or not the parameter is constrained by a
stored field's type, in declaration order under positional names; a lifetime
parameter produces a reference-shaped marker and a type parameter a
type-shaped marker; a const generic parameter is rejected and produces no
marker; a lifetime bound on a struct-level lifetime parameter is rejected. -/
theorem claim_C9_amended (vis : Visibility) (ident : String)
    (generics : Generics) (subs : List (String × Generics))
    (methods : List MethodSig) :
    (gen_struct vis ident generics subs methods).1.phantoms
      = generics.params.enum.filterMap
          (fun ip => (markerFor ip.2).map
            fun t => StructField.mk ("_t" ++ toString ip.1) t) ∧
    ((∃ n, GenericParam.constParam n ∈ generics.params) →
      (gen_struct vis ident generics subs methods).2 ≠ []) ∧
    ((∃ n bs, GenericParam.lifetime n bs ∈ generics.params ∧ bs ≠ []) →
      (gen_struct vis ident generics subs methods).2 ≠ []) := by
  refine ⟨?_, ?_, ?_⟩
  · rw [gen_struct_phantoms]
    exact phantomFieldsAux_fst generics.params 0
  · rintro ⟨n, hn⟩
    rw [gen_struct_diags]
    intro hc
    have h2 : (phantomFields generics.params).2 ≠ [] := by
      rw [phantomFields, phantomFieldsAux_snd]
      exact joinAll_map_ne_nil hn (by simp [paramDiags])
    exact h2 (List.append_eq_nil.mp hc).2
  · rintro ⟨n, bs, hn, hbs⟩
    rw [gen_struct_diags]
    intro hc
    have hbe : bs.isEmpty = false := by
      cases bs
      · exact absurd rfl hbs
      · rfl
    have h2 : (phantomFields generics.params).2 ≠ [] := by
      rw [phantomFields, phantomFieldsAux_snd]
      exact joinAll_map_ne_nil hn (by simp [paramDiags, hbe])
    exact h2 (List.append_eq_nil.mp hc).2

/-- Witness for C9 (amended): one type parameter and one const parameter
yield exactly one type-shaped marker and a rejection diagnostic. -/
theorem claim_C9_witness :
    (gen_struct .publ "Foo" (Generics.mk [.tyParam "T", .constParam "N"]) []
        []).1.phantoms
      = [StructField.mk "_t0"
          (.path "::std::marker::PhantomData" [.path "T" []])] ∧
    (gen_struct .publ "Foo" (Generics.mk [.tyParam "T", .constParam "N"]) []
        []).2 ≠ [] := by
  have h := claim_C9_amended .publ "Foo"
    (Generics.mk [.tyParam "T", .constParam "N"]) [] []
  constructor
  · rw [h.1]
    decide
  · exact h.2.1 ⟨"N", by decide⟩

/-- C8: lowering a trait block emits exactly two implementation blocks — the
trait's own implementation block holding every forwarding method body and
every concrete associated-type binding copied through verbatim, and a second
separate inherent implementation block for the same mock type holding all
the trait's expectation methods — and an associated type without a concrete
binding, or with its own generic parameters, is rejected. -/
theorem claim_C8 (mi : String) (sg : Option Generics) (item : ItemTrait) :
    (mock_trait_methods mi sg item).1
      = [OutputItem.implBlock
          (.traitImpl item.unsafety (sg.getD item.generics) item.ident
            item.generics.typeArgs mi (sg.getD item.generics).typeArgs
            (traitMockItems mi item.ident item.items)),
         OutputItem.implBlock
          (.inherentImpl (sg.getD item.generics) mi
            (sg.getD item.generics).typeArgs
            ((traitExpects mi item.ident item.items).map
              InherentItem.expect))] ∧
    ((∃ n ps d, TraitItem.assocType n ps d ∈ item.items ∧
        (d = none ∨ ps ≠ [])) →
      (mock_trait_methods mi sg item).2 ≠ []) := by
  constructor
  · rw [mock_trait_methods_eq]
  · rintro ⟨n, ps, d, hmem, hbad⟩
    have hdg : (mock_trait_methods mi sg item).2
        = joinAll (item.items.map (traitItemDiags mi item.ident)) := by
      rw [mock_trait_methods_eq]
    rw [hdg]
    apply joinAll_map_ne_nil hmem
    rcases hbad with hb | hb
    · subst hb
      cases hps : ps.isEmpty <;> simp [traitItemDiags, hps]
    · have hbe : ps.isEmpty = false := by
        cases ps
        · exact absurd rfl hb
        · rfl
      rcases d with _ | ty <;> simp [traitItemDiags, hbe]

/-- Witness for C8: scenario C's `Iterator` block lowers to exactly the
trait implementation block (with the verbatim `type Item=u32;` binding and
the forwarding `next`) plus the separate inherent block holding
`expect_next`; a trait with an unbound associated type is rejected. -/
theorem claim_C8_witness :
    (mock_trait_methods "MockMyIter" (some (Generics.mk []))
        traitIterator).1
      = [OutputItem.implBlock
          (.traitImpl false (Generics.mk []) "Iterator" [] "MockMyIter" []
            [.assocType "Item" (.path "u32" []),
             .method (MockMethod.mk false .inherited false false false none
               "next" (Generics.mk []) [.selfRef true]
               (some (.path "Option" [.path "u32" []]))
               (.instanceCall (.subField "Iterator_expectations" "next")
                 "call" none []))]),
         OutputItem.implBlock
          (.inherentImpl (Generics.mk []) "MockMyIter" []
            [.expect (ExpectMethod.mk "expect_next" .publ
              (.instanceHandle (Generics.mk []) "Expectation" []
                (.path "Option" [.path "u32" []])
                (.subField "Iterator_expectations" "next") none))])] ∧
    (mock_trait_methods "MockB" none
        (ItemTrait.mk false "B" (Generics.mk [])
          [.assocType "A" [] none])).2 ≠ [] := by
  constructor
  · rw [(claim_C8 "MockMyIter" (some (Generics.mk [])) traitIterator).1]
    decide
  · exact (claim_C8 "MockB" none
      (ItemTrait.mk false "B" (Generics.mk []) [.assocType "A" [] none])).2
      ⟨"A", [], none, by decide, Or.inl rfl⟩

theorem pairs_fold_mem {α β : Type} (f g : α → β) (rs : List α) :
    ∀ (init : List β) (x : β),
      x ∈ rs.foldl (fun acc r => acc ++ [f r, g r]) init →
      x ∈ init ∨ ∃ r ∈ rs, x = f r ∨ x = g r := by
  induction rs with
  | nil => intro init x hx; exact Or.inl hx
  | cons r rest ih =>
    intro init x hx
    rcases ih _ x hx with hin | ⟨r2, hr2, hor⟩
    · rcases List.mem_append.mp hin with h1 | h2
      · exact Or.inl h1
      · right
        refine ⟨r, List.mem_cons_self _ _, ?_⟩
        simpa using h2
    · right
      exact ⟨r2, List.mem_cons_of_mem _ hr2, hor⟩

theorem traitMockItems_mem {mi : String} {tid : String}
    {items : List TraitItem} {x : TraitImplItem}
    (h : x ∈ traitMockItems mi tid items) :
    (∃ ms, x = TraitImplItem.method
        (gen_mock_method mi false .inherited ms (some tid)).1.1) ∨
    (∃ n ty, x = TraitImplItem.assocType n ty) := by
  rcases List.mem_filterMap.mp h with ⟨ti, hti, hf⟩
  cases ti with
  | constItem n => simp at hf
  | method ms =>
    left
    injection hf with h1
    exact ⟨ms, h1.symm⟩
  | assocType n ps d =>
    cases d with
    | none => simp at hf
    | some ty =>
      right
      injection hf with h1
      exact ⟨n, ty, h1.symm⟩
  | other => simp at hf

theorem traitExpects_mem {mi : String} {tid : String}
    {items : List TraitItem} {e : ExpectMethod}
    (h : e ∈ traitExpects mi tid items) :
    ∃ ms, e = (gen_mock_method mi false .inherited ms (some tid)).1.2 := by
  rcases List.mem_filterMap.mp h with ⟨ti, hti, hf⟩
  cases ti with
  | constItem n => simp at hf
  | method ms =>
    injection hf with h1
    exact ⟨ms, h1.symm⟩
  | assocType n ps d =>
    cases d with
    | none => simp at hf
    | some ty => simp at hf
  | other => simp at hf

/-- C10: every generated expectation method is emitted `pub`; every
forwarding method generated for the free-method block is emitted `pub`
regardless of the specification's written visibility; forwarding methods
generated inside a trait implementation block carry no visibility
qualifier. -/
theorem claim_C10 (m : Mock) :
    ∀ b ∈ (Mock.gen m).1,
      (∀ g si sa its, b = OutputItem.implBlock (.inherentImpl g si sa its) →
        ∀ it ∈ its,
          (∀ mm, it = InherentItem.mock mm → mm.vis = .publ) ∧
          (∀ em, it = InherentItem.expect em → em.vis = .publ)) ∧
      (∀ u g tn ta si sa its,
        b = OutputItem.implBlock (.traitImpl u g tn ta si sa its) →
        ∀ it ∈ its, ∀ mm, it = TraitImplItem.method mm →
          mm.vis = .inherited) := by
  intro b hb
  rw [Mock_gen_items] at hb
  rcases List.mem_append.mp hb with hb1 | hbT
  · rcases List.mem_append.mp hb1 with hb2 | hbF
    · rcases List.mem_append.mp hb2 with hbM | hbS
      · rcases List.mem_singleton.mp hbM with rfl
        constructor
        · intro g si sa its heq
          cases heq
        · intro u g tn ta si sa its heq
          cases heq
      · rcases List.mem_map.mp hbS with ⟨r, hr, rfl⟩
        constructor
        · intro g si sa its heq
          cases heq
        · intro u g tn ta si sa its heq
          cases heq
    · rcases List.mem_singleton.mp hbF with rfl
      constructor
      · intro g si sa its heq
        injection heq with heq2
        injection heq2 with e1 e2 e3 e4
        subst e4
        intro it hit
        rcases pairs_fold_mem _ _ _ _ it hit with hin | ⟨r, hr, hor⟩
        · cases hin
        · rcases List.mem_map.mp hr with ⟨meth, hmeth, rfl⟩
          rcases hor with rfl | rfl
          · refine ⟨?_, ?_⟩
            · intro mm hmm
              injection hmm with h5
              rw [← h5]
              exact gen_mock_method_mm_vis _ _ _ _ _
            · intro em hem
              cases hem
          · refine ⟨?_, ?_⟩
            · intro mm hmm
              cases hmm
            · intro em hem
              injection hem with h5
              rw [← h5]
              exact gen_mock_method_em_vis _ _ _ _ _
      · intro u g tn ta si sa its heq
        injection heq with heq2
        cases heq2
  · rcases mem_joinAll.mp hbT with ⟨ys, hys, hbys⟩
    rcases List.mem_map.mp hys with ⟨pr, hpr, rfl⟩
    rcases List.mem_map.mp hpr with ⟨t, ht, rfl⟩
    rw [mock_trait_methods_eq] at hbys
    rcases List.mem_cons.mp hbys with rfl | hbys2
    · constructor
      · intro g si sa its heq
        injection heq with heq2
        cases heq2
      · intro u g tn ta si sa its heq
        injection heq with heq2
        injection heq2 with e1 e2 e3 e4 e5 e6 e7
        subst e7
        intro it hit mm hmm
        subst hmm
        rcases traitMockItems_mem hit with ⟨ms, hms⟩ | ⟨n, ty, hty⟩
        · injection hms with h5
          rw [h5]
          exact gen_mock_method_mm_vis _ _ _ _ _
        · cases hty
    · rcases List.mem_cons.mp hbys2 with rfl | hnil
      · constructor
        · intro g si sa its heq
          injection heq with heq2
          injection heq2 with e1 e2 e3 e4
          subst e4
          intro it hit
          rcases List.mem_map.mp hit with ⟨em0, hem0, rfl⟩
          refine ⟨?_, ?_⟩
          · intro mm hmm
            cases hmm
          · intro em hem
            injection hem with h5
            rcases traitExpects_mem hem0 with ⟨ms, hms⟩
            rw [← h5, hms]
            exact gen_mock_method_em_vis _ _ _ _ _
        · intro u g tn ta si sa its heq
          injection heq with heq2
          cases heq2
      · cases hnil

/-- Witness for C10: the expectation method generated for scenario A's
method is public. -/
theorem claim_C10_witness :
    (gen_mock_method "MockFoo" false .publ sigFooU32 none).1.2.vis
      = .publ := by
  have hb : OutputItem.implBlock
      (.inherentImpl (Generics.mk []) "MockFoo" []
        (([sigFooU32, sigBarStatic].map fun meth =>
            gen_mock_method "MockFoo" false .publ meth none).foldl
          (fun acc r =>
            acc ++ [InherentItem.mock r.1.1, InherentItem.expect r.1.2]) []))
      ∈ (Mock.gen mockFoo).1 := by decide
  have h := claim_C10 mockFoo _ hb
  refine (h.1 _ _ _ _ rfl
    (InherentItem.expect (gen_mock_method "MockFoo" false .publ sigFooU32
      none).1.2) (by decide)).2 _ rfl

end Mockall
